import Mathlib

/-!
Verification of the pdfresizer compression tool (`pdf_compressor.py`,
`pdf_utils.py`).

The size-target search of `PDFCompressor.compress_pdf` is embedded as a pure
function over an oracle environment `Env`: the environment records the input
file's bytes and, for every candidate parameter pair, the outcome of the
corresponding rebuild call (`compress_pdf_images` for Phase 1,
`compress_pdf_rendering` for Phase 2).  The loop structure, the temp-file
bookkeeping and the best-result selection are translated statement by
statement from the source.  Per-page rebuild behaviour, image recompression
(`compress_image`) and the analyzer (`analyze_pdf`, `recommend_strategy`)
are embedded separately below.
-/

namespace PdfResizer

/-- `self.quality_levels` from `PDFCompressor.__init__`. -/
def quality_levels : List ℕ := [95, 85, 75, 65, 50, 40, 30, 20]

/-- `self.scale_factors` from `PDFCompressor.__init__`. -/
def scale_factors : List ℚ := [1, 9/10, 8/10, 7/10, 6/10, 5/10, 4/10]

/-- `dpi_levels` from Phase 2 of `compress_pdf`. -/
def dpi_levels : List ℕ := [150, 120, 100, 80, 60, 50]

/-- Outcome of one rebuild call (`compress_pdf_images` or
`compress_pdf_rendering`) on the temp path: the call either returns `True`
having written a file with the given bytes, or returns `False` leaving no
file, or returns `False` leaving a partial file behind. -/
inductive Rebuild where
  | ok (content : List ℕ)
  | failClean
  | failDirty
deriving DecidableEq

/-- The oracle environment a `compress_pdf` run is evaluated against:
the input file's bytes, and the outcome of each candidate rebuild. -/
structure Env where
  origBytes : List ℕ
  images : ℕ → ℚ → Rebuild
  render : ℕ → ℚ → Rebuild

/-- One invocation of a rebuild routine, recorded in the call trace. -/
inductive Call where
  | images (quality : ℕ) (scale : ℚ)
  | render (dpi : ℕ) (scale : ℚ)
deriving DecidableEq

/-- Observable result of a `compress_pdf` run: whether it returned normally
(`success = false` means the final `Exception` was raised), the bytes at the
final output path if any were written, whether the Phase 1 temp file
(`<output>.temp`) and the Phase 2 temp file (`<output>.temp2`) still exist
when the function ends, and the trace of rebuild invocations. -/
structure RunResult where
  success : Bool
  output : Option (List ℕ)
  tempLeft : Bool
  temp2Left : Bool
  calls : List Call
deriving DecidableEq

/-- The inner `for scale in self.scale_factors` loop of Phase 1 for a fixed
`quality`, entered with `best_result = None`.  Returns the recorded best
candidate (scale and temp-file bytes) if one was found, whether the temp
file exists after the loop, and the rebuild calls made.  On a satisfying
candidate the loop breaks immediately (the cleanup line is skipped, so the
selected temp file survives); otherwise the cleanup line removes any file at
the temp path before the next iteration. -/
def phase1Inner (env : Env) (target : ℚ) (quality : ℕ) :
    List ℚ → Bool → Option (ℚ × List ℕ) × Bool × List Call
  | [], te => (none, te, [])
  | s :: rest, _ =>
    match env.images quality s with
    | .ok content =>
      if (content.length : ℚ) ≤ target then
        (some (s, content), true, [Call.images quality s])
      else
        let r := phase1Inner env target quality rest false
        (r.1, r.2.1, Call.images quality s :: r.2.2)
    | .failClean =>
        let r := phase1Inner env target quality rest false
        (r.1, r.2.1, Call.images quality s :: r.2.2)
    | .failDirty =>
        let r := phase1Inner env target quality rest false
        (r.1, r.2.1, Call.images quality s :: r.2.2)

/-- The outer `for quality in self.quality_levels` loop of Phase 1: runs the
inner scale loop per quality level and breaks as soon as a best result is
recorded (`if best_result: break`). -/
def phase1Outer (env : Env) (target : ℚ) :
    List ℕ → Bool → Option (ℕ × ℚ × List ℕ) × Bool × List Call
  | [], te => (none, te, [])
  | q :: rest, te =>
    match phase1Inner env target q scale_factors te with
    | (some (s, content), te', cs) => (some (q, s, content), te', cs)
    | (none, te', cs) =>
        let r := phase1Outer env target rest te'
        (r.1, r.2.1, cs ++ r.2.2)

/-- The inner scale loop of Phase 2 for a fixed `dpi`, using
`compress_pdf_rendering` and the `.temp2` path; control flow mirrors
Phase 1's inner loop. -/
def phase2Inner (env : Env) (target : ℚ) (dpi : ℕ) :
    List ℚ → Bool → Option (ℚ × List ℕ) × Bool × List Call
  | [], te => (none, te, [])
  | s :: rest, _ =>
    match env.render dpi s with
    | .ok content =>
      if (content.length : ℚ) ≤ target then
        (some (s, content), true, [Call.render dpi s])
      else
        let r := phase2Inner env target dpi rest false
        (r.1, r.2.1, Call.render dpi s :: r.2.2)
    | .failClean =>
        let r := phase2Inner env target dpi rest false
        (r.1, r.2.1, Call.render dpi s :: r.2.2)
    | .failDirty =>
        let r := phase2Inner env target dpi rest false
        (r.1, r.2.1, Call.render dpi s :: r.2.2)

/-- The outer `for dpi in dpi_levels` loop of Phase 2. -/
def phase2Outer (env : Env) (target : ℚ) :
    List ℕ → Bool → Option (ℕ × ℚ × List ℕ) × Bool × List Call
  | [], te => (none, te, [])
  | d :: rest, te =>
    match phase2Inner env target d scale_factors te with
    | (some (s, content), te', cs) => (some (d, s, content), te', cs)
    | (none, te', cs) =>
        let r := phase2Outer env target rest te'
        (r.1, r.2.1, cs ++ r.2.2)

/-- `PDFCompressor.compress_pdf`: trivial copy when the input already meets
the target (`shutil.copy2`), otherwise Phase 1 then Phase 2; a selected temp
file is moved onto the output path (`shutil.move`), and if both phases are
exhausted the final `Exception` is raised with nothing written to the output
path. -/
def compressPdf (env : Env) (target : ℚ) : RunResult :=
  if (env.origBytes.length : ℚ) ≤ target then
    { success := true, output := some env.origBytes,
      tempLeft := false, temp2Left := false, calls := [] }
  else
    match phase1Outer env target quality_levels false with
    | (some (_, _, content), _, cs) =>
        { success := true, output := some content,
          tempLeft := false, temp2Left := false, calls := cs }
    | (none, te, cs) =>
      match phase2Outer env target dpi_levels false with
      | (some (_, _, content), _, cs2) =>
          { success := true, output := some content,
            tempLeft := te, temp2Left := false, calls := cs ++ cs2 }
      | (none, te2, cs2) =>
          { success := false, output := none,
            tempLeft := te, temp2Left := te2, calls := cs ++ cs2 }

/-- The Phase 1 candidate grid in enumeration order: quality descending as
the outer loop, scale descending as the inner loop. -/
def qsPairs : List (ℕ × ℚ) :=
  quality_levels.flatMap (fun q => scale_factors.map (fun s => (q, s)))

/-- A Phase 1 candidate satisfies the budget when its rebuild succeeds and
the rebuilt file's size is at or below the target. -/
def satImages (env : Env) (target : ℚ) (p : ℕ × ℚ) : Bool :=
  match env.images p.1 p.2 with
  | .ok content => decide ((content.length : ℚ) ≤ target)
  | _ => false

/-- Bytes produced by a Phase 1 rebuild (empty when the rebuild fails). -/
def imagesContent (env : Env) (q : ℕ) (s : ℚ) : List ℕ :=
  match env.images q s with
  | .ok content => content
  | _ => []

/-- The Phase 2 candidate grid in enumeration order: DPI descending as the
outer loop, scale descending as the inner loop. -/
def dsPairs : List (ℕ × ℚ) :=
  dpi_levels.flatMap (fun d => scale_factors.map (fun s => (d, s)))

/-- A Phase 2 candidate satisfies the budget when its rebuild succeeds and
the rebuilt file's size is at or below the target. -/
def satRender (env : Env) (target : ℚ) (p : ℕ × ℚ) : Bool :=
  match env.render p.1 p.2 with
  | .ok content => decide ((content.length : ℚ) ≤ target)
  | _ => false

/-! ### Per-page rebuild behaviour

`compress_pdf_images` and `compress_pdf_rendering` build the new document
page by page.  A source page is modelled by its rectangle dimensions and its
embedded images (as reported by `page.get_images()` / `doc.extract_image`);
the new page records its dimensions and how its content was produced: as a
full-page raster (rendered via `get_pixmap` at some zoom and JPEG-encoded at
some quality) or by transcluding the original page (`show_pdf_page`). -/

/-- An embedded image of a source page: pixel dimensions and encoded byte
length from `doc.extract_image`, and whether that extraction succeeds
(`extract_image` failures are skipped by the analyzer's `continue`). -/
structure ImgInfo where
  width : ℕ
  height : ℕ
  byteLen : ℕ
  extractOk : Bool
deriving DecidableEq

/-- A source page: `page.rect` dimensions in points and its embedded
images. -/
structure Page where
  width : ℚ
  height : ℚ
  images : List ImgInfo
deriving DecidableEq

/-- How a rebuilt page's content was produced. -/
inductive PageContent where
  | raster (jpegQuality : ℕ) (zoom : ℚ)
  | transclude
deriving DecidableEq

/-- The JPEG encode quality of a rebuilt page, when it was rasterized. -/
def PageContent.jpegQuality? : PageContent → Option ℕ
  | .raster q _ => some q
  | .transclude => none

/-- A page of the rebuilt document. -/
structure NewPage where
  width : ℚ
  height : ℚ
  content : PageContent
deriving DecidableEq

/-- The per-page body of `compress_pdf_images`: a page with at least one
image is rendered via `get_pixmap(matrix=Matrix(scale, scale))` and encoded
with `pil_image.save(format=JPEG, quality=quality)` into a new page of the
original dimensions times `scale`; a page with no images becomes a new page
of the scaled dimensions whose content is the original page transcluded via
`show_pdf_page`. -/
def imagesPage (quality : ℕ) (scale : ℚ) (p : Page) : NewPage :=
  if p.images.isEmpty = false then
    { width := p.width * scale, height := p.height * scale,
      content := .raster quality scale }
  else
    { width := p.width * scale, height := p.height * scale,
      content := .transclude }

/-- The per-page body of `compress_pdf_rendering`: every page is rendered
via `get_pixmap(matrix=Matrix(zoom * scale, zoom * scale))` with
`zoom = dpi / 72.0` and encoded with `pil_image.save(format=JPEG,
quality=85)` into a new page of the original dimensions times `scale`. -/
def renderPage (dpi : ℕ) (scale : ℚ) (p : Page) : NewPage :=
  { width := p.width * scale, height := p.height * scale,
    content := .raster 85 ((dpi : ℚ) / 72 * scale) }

/-- The page loop of `compress_pdf_images`. -/
def compress_pdf_images (quality : ℕ) (scale : ℚ) (pages : List Page) :
    List NewPage :=
  pages.map (imagesPage quality scale)

/-- The page loop of `compress_pdf_rendering`. -/
def compress_pdf_rendering (dpi : ℕ) (scale : ℚ) (pages : List Page) :
    List NewPage :=
  pages.map (renderPage dpi scale)

/-! ### `compress_image`

The method body is one `try` block; the external image codec (PIL) is an
oracle whose individual operations may fail.  Python's `int()` truncation is
modelled by `pyInt`. -/

/-- Truncation of a rational toward zero, as Python's `int()`. -/
def pyInt (q : ℚ) : ℤ := q.num / (q.den : ℤ)

/-- A decoded PIL image: color mode and pixel dimensions. -/
structure Img where
  mode : String
  width : ℕ
  height : ℕ

/-- The image codec oracle: each PIL operation used by `compress_image`,
fallible operations returning `none` on failure. -/
structure Codec where
  openImage : List ℕ → Option Img
  newRGB : ℕ → ℕ → Img
  paste : Img → Img → Option Img
  convertRGB : Img → Option Img
  resize : Img → ℕ → ℕ → Option Img
  saveJpeg : Img → ℕ → Option (List ℕ)

/-- The `try` body of `compress_image`: open the bytes; composite RGBA or
palette images onto a white RGB background, convert any other non-RGB mode
to RGB; if `scale < 1.0`, resize to `(int(width * scale),
int(height * scale))`; JPEG-encode at `quality`.  `none` when any step
raises. -/
def compressImagePipeline (c : Codec) (data : List ℕ) (quality : ℕ)
    (scale : ℚ) : Option (List ℕ) :=
  match c.openImage data with
  | none => none
  | some img0 =>
    let step1 : Option Img :=
      if img0.mode = "RGBA" ∨ img0.mode = "P" then
        c.paste (c.newRGB img0.width img0.height) img0
      else if img0.mode ≠ "RGB" then
        c.convertRGB img0
      else
        some img0
    match step1 with
    | none => none
    | some img1 =>
      let step2 : Option Img :=
        if scale < 1 then
          c.resize img1 (pyInt ((img1.width : ℚ) * scale)).toNat
            (pyInt ((img1.height : ℚ) * scale)).toNat
        else
          some img1
      match step2 with
      | none => none
      | some img2 => c.saveJpeg img2 quality

/-- `PDFCompressor.compress_image`: returns the pipeline's bytes, or on any
exception the original bytes unchanged; the second component records
whether the `except` branch printed its warning diagnostic. -/
def compress_image (c : Codec) (image_data : List ℕ) (quality : ℕ)
    (scale : ℚ) : List ℕ × Bool :=
  match compressImagePipeline c image_data quality scale with
  | some out => (out, false)
  | none => (image_data, true)

/-! ### `PDFAnalyzer.analyze_pdf` and `recommend_strategy` -/

/-- An opened document as the analyzer sees it: its pages and its on-disk
file size. -/
structure Doc where
  pages : List Page
  fileSize : ℕ
deriving DecidableEq

/-- An image contributes to the area/DPI accumulators when its extraction
succeeds and both its pixel dimensions are positive. -/
def imgCounted (i : ImgInfo) : Bool :=
  i.extractOk && decide (0 < i.width) && decide (0 < i.height)

/-- `total_image_area`: sum over counted images of `width * height`. -/
def totalImageArea (d : Doc) : ℕ :=
  (d.pages.flatMap (fun p => p.images.filter imgCounted)).foldl
    (fun a i => a + i.width * i.height) 0

/-- `total_page_area`: sum over pages of `rect.width * rect.height`. -/
def totalPageArea (d : Doc) : ℚ :=
  d.pages.foldl (fun a p => a + p.width * p.height) 0

/-- `total_dpi`: sum over counted images of the estimated DPI
`max(width, height) / 8.5`. -/
def totalDpi (d : Doc) : ℚ :=
  (d.pages.flatMap (fun p => p.images.filter imgCounted)).foldl
    (fun a i => a + (max i.width i.height : ℚ) / (17/2)) 0

/-- `dpi_count`: number of counted images. -/
def dpiCount (d : Doc) : ℕ :=
  (d.pages.flatMap (fun p => p.images.filter imgCounted)).length

/-- The analysis dictionary built by `analyze_pdf` (success case). -/
structure Analysis where
  page_count : ℕ
  total_images : ℕ
  image_sizes : List ℕ
  text_heavy : Bool
  image_heavy : Bool
  average_dpi : ℚ
  file_size : ℕ
deriving DecidableEq

/-- `PDFAnalyzer.analyze_pdf` on an opened document: accumulates image and
page statistics, then classifies only when `total_image_area > 0`, with
`image_ratio = total_image_area / (total_page_area * doc.page_count)` when
`total_page_area > 0` and `0` otherwise. -/
def analyzePdf (d : Doc) : Analysis :=
  let tia := totalImageArea d
  let tpa := totalPageArea d
  let base : Analysis :=
    { page_count := d.pages.length
      total_images := (d.pages.map (fun p => p.images.length)).sum
      image_sizes :=
        d.pages.flatMap (fun p => (p.images.filter (·.extractOk)).map (·.byteLen))
      text_heavy := false
      image_heavy := false
      average_dpi := 0
      file_size := d.fileSize }
  if 0 < tia then
    let avg : ℚ := if 0 < dpiCount d then totalDpi d / (dpiCount d : ℚ) else 0
    let r : ℚ := if 0 < tpa then (tia : ℚ) / (tpa * (d.pages.length : ℚ)) else 0
    { base with
      average_dpi := avg
      image_heavy := decide (r > 3/10)
      text_heavy := decide (r < 1/10) }
  else
    base

/-- Input to `recommend_strategy`: `analyze_pdf` either returns an analysis
dictionary or, when opening the document raised, a dictionary holding only
an error string. -/
inductive AnalyzeOutput where
  | ok (a : Analysis)
  | err (msg : String)

/-- `PDFAnalyzer.recommend_strategy`. -/
def recommendStrategy : AnalyzeOutput → String
  | .err _ => "basic"
  | .ok a =>
    if a.image_heavy then
      if a.average_dpi > 200 then "aggressive_image_compression"
      else "moderate_image_compression"
    else if a.text_heavy then "dpi_reduction"
    else "balanced"

/-! ### Concrete sample inputs used by witnesses and counterexamples -/

/-- An environment whose input is 2 bytes and whose rebuilds all fail. -/
def envSmall : Env :=
  { origBytes := [0, 0], images := fun _ _ => .failClean,
    render := fun _ _ => .failClean }

/-- A codec whose decode step always fails. -/
def badCodec : Codec :=
  { openImage := fun _ => none, newRGB := fun _ _ => ⟨"RGB", 0, 0⟩,
    paste := fun _ _ => none, convertRGB := fun _ => none,
    resize := fun _ _ _ => none, saveJpeg := fun _ _ => none }

/-- A letter-size page containing one embedded image. -/
def pgWithImage : Page := ⟨612, 792, [⟨100, 100, 10, true⟩]⟩

/-- A letter-size page with no embedded images. -/
def pgNoImage : Page := ⟨612, 792, []⟩

/-- A two-page document: each page 10 × 10 points, the first page holding
one 8 × 10-pixel image, so the image area is 80, the summed page area is
200, and the page count is 2. -/
def docTwoPage : Doc := ⟨[⟨10, 10, [⟨8, 10, 5, true⟩]⟩, ⟨10, 10, []⟩], 100⟩

/-- A one-page document with no images. -/
def docNoImages : Doc := ⟨[⟨612, 792, []⟩], 50⟩

/-- The `image_ratio` local of `analyze_pdf`:
`total_image_area / (total_page_area * doc.page_count)` when
`total_page_area > 0`, else `0`. -/
def imageRatioOf (d : Doc) : ℚ :=
  if 0 < totalPageArea d then
    (totalImageArea d : ℚ) / (totalPageArea d * (d.pages.length : ℚ))
  else 0

/-- Bytes produced by a Phase 2 rebuild (empty when the rebuild fails). -/
def renderContent (env : Env) (d : ℕ) (s : ℚ) : List ℕ :=
  match env.render d s with
  | .ok content => content
  | _ => []

/-! ### Helper lemmas about the Phase 1 and Phase 2 loops -/

theorem phase1Inner_fst (env : Env) (target : ℚ) (q : ℕ) :
    ∀ scales : List ℚ,
      (phase1Inner env target q scales false).1 =
        (scales.find? (fun s => satImages env target (q, s))).map
          (fun s => (s, imagesContent env q s))
  | [] => rfl
  | s :: rest => by
    have ih := phase1Inner_fst env target q rest
    simp only [phase1Inner, List.find?]
    cases h : env.images q s with
    | ok content =>
      by_cases hle : (content.length : ℚ) ≤ target
      · simp [satImages, imagesContent, h, hle]
      · simp [satImages, imagesContent, h, hle, ih]
    | failClean => simp [satImages, h, ih]
    | failDirty => simp [satImages, h, ih]

theorem phase1Inner_te (env : Env) (target : ℚ) (q : ℕ) :
    ∀ scales : List ℚ,
      (phase1Inner env target q scales false).2.1 =
        (phase1Inner env target q scales false).1.isSome
  | [] => rfl
  | s :: rest => by
    have ih := phase1Inner_te env target q rest
    simp only [phase1Inner]
    cases h : env.images q s with
    | ok content =>
      by_cases hle : (content.length : ℚ) ≤ target
      · simp [hle]
      · simpa [hle] using ih
    | failClean => simpa using ih
    | failDirty => simpa using ih

theorem phase1Outer_fst (env : Env) (target : ℚ) :
    ∀ qs : List ℕ,
      (phase1Outer env target qs false).1 =
        ((qs.flatMap (fun q => scale_factors.map (fun s => (q, s)))).find?
            (satImages env target)).map
          (fun p => (p.1, p.2, imagesContent env p.1 p.2))
  | [] => rfl
  | q :: rest => by
    have ih := phase1Outer_fst env target rest
    have hin := phase1Inner_fst env target q scale_factors
    have hte := phase1Inner_te env target q scale_factors
    simp only [phase1Outer, List.flatMap_cons, List.find?_append, List.find?_map]
    rcases ho : phase1Inner env target q scale_factors false with ⟨o, te, cs⟩
    rw [ho] at hin hte
    cases o with
    | some pr =>
      simp only [Option.isSome_some] at hte
      rcases pr with ⟨s, content⟩
      simp only at hin
      rcases hmap : scale_factors.find? (fun s => satImages env target (q, s))
        with _ | s0
      · rw [hmap] at hin; simp at hin
      · rw [hmap] at hin
        simp only [Option.map_some'] at hin
        have hs : s0 = s := by
          have := congrArg (fun x => Option.map Prod.fst x) hin
          simpa using this.symm
        have hc : imagesContent env q s0 = content := by
          have := congrArg (fun x => Option.map Prod.snd x) hin
          simpa using this.symm
        subst hs
        have hcomp : (scale_factors.find?
            ((satImages env target) ∘ (fun s => (q, s)))) = some s0 := by
          simpa [Function.comp] using hmap
        simp [hcomp, hc, Option.or]
    | none =>
      simp only [Option.isSome_none] at hte
      subst hte
      simp only at hin
      rcases hmap : scale_factors.find? (fun s => satImages env target (q, s))
        with _ | s0
      · have hcomp : (scale_factors.find?
            ((satImages env target) ∘ (fun s => (q, s)))) = none := by
          simpa [Function.comp] using hmap
        simp [hcomp, Option.or, ih]
      · rw [hmap] at hin; simp at hin

theorem phase1Outer_te (env : Env) (target : ℚ) :
    ∀ qs : List ℕ,
      (phase1Outer env target qs false).2.1 =
        (phase1Outer env target qs false).1.isSome
  | [] => rfl
  | q :: rest => by
    have ih := phase1Outer_te env target rest
    have hte := phase1Inner_te env target q scale_factors
    simp only [phase1Outer]
    rcases ho : phase1Inner env target q scale_factors false with ⟨o, te, cs⟩
    rw [ho] at hte
    cases o with
    | some pr =>
      rcases pr with ⟨s, content⟩
      simp only [Option.isSome_some] at hte
      simp [hte]
    | none =>
      simp only [Option.isSome_none] at hte
      subst hte
      simpa using ih

theorem phase2Inner_fst (env : Env) (target : ℚ) (d : ℕ) :
    ∀ scales : List ℚ,
      (phase2Inner env target d scales false).1 =
        (scales.find? (fun s => satRender env target (d, s))).map
          (fun s => (s, renderContent env d s))
  | [] => rfl
  | s :: rest => by
    have ih := phase2Inner_fst env target d rest
    simp only [phase2Inner, List.find?]
    cases h : env.render d s with
    | ok content =>
      by_cases hle : (content.length : ℚ) ≤ target
      · simp [satRender, renderContent, h, hle]
      · simp [satRender, renderContent, h, hle, ih]
    | failClean => simp [satRender, h, ih]
    | failDirty => simp [satRender, h, ih]

theorem phase2Inner_te (env : Env) (target : ℚ) (d : ℕ) :
    ∀ scales : List ℚ,
      (phase2Inner env target d scales false).2.1 =
        (phase2Inner env target d scales false).1.isSome
  | [] => rfl
  | s :: rest => by
    have ih := phase2Inner_te env target d rest
    simp only [phase2Inner]
    cases h : env.render d s with
    | ok content =>
      by_cases hle : (content.length : ℚ) ≤ target
      · simp [hle]
      · simpa [hle] using ih
    | failClean => simpa using ih
    | failDirty => simpa using ih

theorem phase2Outer_fst (env : Env) (target : ℚ) :
    ∀ ds : List ℕ,
      (phase2Outer env target ds false).1 =
        ((ds.flatMap (fun d => scale_factors.map (fun s => (d, s)))).find?
            (satRender env target)).map
          (fun p => (p.1, p.2, renderContent env p.1 p.2))
  | [] => rfl
  | d :: rest => by
    have ih := phase2Outer_fst env target rest
    have hin := phase2Inner_fst env target d scale_factors
    have hte := phase2Inner_te env target d scale_factors
    simp only [phase2Outer, List.flatMap_cons, List.find?_append, List.find?_map]
    rcases ho : phase2Inner env target d scale_factors false with ⟨o, te, cs⟩
    rw [ho] at hin hte
    cases o with
    | some pr =>
      simp only [Option.isSome_some] at hte
      rcases pr with ⟨s, content⟩
      simp only at hin
      rcases hmap : scale_factors.find? (fun s => satRender env target (d, s))
        with _ | s0
      · rw [hmap] at hin; simp at hin
      · rw [hmap] at hin
        simp only [Option.map_some'] at hin
        have hs : s0 = s := by
          have := congrArg (fun x => Option.map Prod.fst x) hin
          simpa using this.symm
        have hc : renderContent env d s0 = content := by
          have := congrArg (fun x => Option.map Prod.snd x) hin
          simpa using this.symm
        subst hs
        have hcomp : (scale_factors.find?
            ((satRender env target) ∘ (fun s => (d, s)))) = some s0 := by
          simpa [Function.comp] using hmap
        simp [hcomp, hc, Option.or]
    | none =>
      simp only [Option.isSome_none] at hte
      subst hte
      simp only at hin
      rcases hmap : scale_factors.find? (fun s => satRender env target (d, s))
        with _ | s0
      · have hcomp : (scale_factors.find?
            ((satRender env target) ∘ (fun s => (d, s)))) = none := by
          simpa [Function.comp] using hmap
        simp [hcomp, Option.or, ih]
      · rw [hmap] at hin; simp at hin

theorem phase2Outer_te (env : Env) (target : ℚ) :
    ∀ ds : List ℕ,
      (phase2Outer env target ds false).2.1 =
        (phase2Outer env target ds false).1.isSome
  | [] => rfl
  | d :: rest => by
    have ih := phase2Outer_te env target rest
    have hte := phase2Inner_te env target d scale_factors
    simp only [phase2Outer]
    rcases ho : phase2Inner env target d scale_factors false with ⟨o, te, cs⟩
    rw [ho] at hte
    cases o with
    | some pr =>
      rcases pr with ⟨s, content⟩
      simp only [Option.isSome_some] at hte
      simp [hte]
    | none =>
      simp only [Option.isSome_none] at hte
      subst hte
      simpa using ih

theorem satImages_le (env : Env) (target : ℚ) (p : ℕ × ℚ)
    (h : satImages env target p = true) :
    ((imagesContent env p.1 p.2).length : ℚ) ≤ target := by
  unfold satImages at h
  unfold imagesContent
  cases henv : env.images p.1 p.2 with
  | ok content => rw [henv] at h; simpa using h
  | failClean => rw [henv] at h; simp at h
  | failDirty => rw [henv] at h; simp at h

theorem satRender_le (env : Env) (target : ℚ) (p : ℕ × ℚ)
    (h : satRender env target p = true) :
    ((renderContent env p.1 p.2).length : ℚ) ≤ target := by
  unfold satRender at h
  unfold renderContent
  cases henv : env.render p.1 p.2 with
  | ok content => rw [henv] at h; simpa using h
  | failClean => rw [henv] at h; simp at h
  | failDirty => rw [henv] at h; simp at h

theorem phase1Outer_some_le (env : Env) (target : ℚ) (q : ℕ) (s : ℚ)
    (content : List ℕ)
    (h : (phase1Outer env target quality_levels false).1 = some (q, s, content)) :
    (content.length : ℚ) ≤ target := by
  rw [phase1Outer_fst env target quality_levels] at h
  rcases hf : (quality_levels.flatMap
      (fun q => scale_factors.map (fun s => (q, s)))).find?
      (satImages env target) with _ | p
  · rw [hf] at h; simp at h
  · rw [hf] at h
    simp only [Option.map_some'] at h
    have hsat := List.find?_some hf
    have hle := satImages_le env target p hsat
    have hc : imagesContent env p.1 p.2 = content := by
      have := congrArg (fun x => Option.map (fun y => y.2.2) x) h
      simpa using this
    rwa [hc] at hle

theorem phase2Outer_some_le (env : Env) (target : ℚ) (d : ℕ) (s : ℚ)
    (content : List ℕ)
    (h : (phase2Outer env target dpi_levels false).1 = some (d, s, content)) :
    (content.length : ℚ) ≤ target := by
  rw [phase2Outer_fst env target dpi_levels] at h
  rcases hf : (dpi_levels.flatMap
      (fun d => scale_factors.map (fun s => (d, s)))).find?
      (satRender env target) with _ | p
  · rw [hf] at h; simp at h
  · rw [hf] at h
    simp only [Option.map_some'] at h
    have hsat := List.find?_some hf
    have hle := satRender_le env target p hsat
    have hc : renderContent env p.1 p.2 = content := by
      have := congrArg (fun x => Option.map (fun y => y.2.2) x) h
      simpa using this
    rwa [hc] at hle

theorem analyzePdf_heavy_eq (d : Doc) (h : 0 < totalImageArea d) :
    (analyzePdf d).image_heavy = decide (imageRatioOf d > 3/10) ∧
    (analyzePdf d).text_heavy = decide (imageRatioOf d < 1/10) := by
  simp only [analyzePdf, imageRatioOf, if_pos h]
  exact ⟨trivial, trivial⟩

/-! ### Claim theorems -/

/-- C1: Phase 1 of `compress_pdf` enumerates candidates with quality
descending over `[95, 85, 75, 65, 50, 40, 30, 20]` as the outer loop and
scale descending over `[1.0, 0.9, 0.8, 0.7, 0.6, 0.5, 0.4]` as the inner
loop, and the selected candidate is exactly the first pair in that
enumeration order whose rebuilt file size is at or below the target; both
loops exit on it, so no later pair can replace it. -/
theorem c1_phase1_selects_first_satisfying (env : Env) (target : ℚ) :
    quality_levels = [95, 85, 75, 65, 50, 40, 30, 20] ∧
    scale_factors = [1, 9/10, 8/10, 7/10, 6/10, 5/10, 4/10] ∧
    (phase1Outer env target quality_levels false).1 =
      (qsPairs.find? (satImages env target)).map
        (fun p => (p.1, p.2, imagesContent env p.1 p.2)) :=
  ⟨rfl, rfl, phase1Outer_fst env target quality_levels⟩

/-- C2: whenever `compress_pdf` returns successfully — by trivial copy or by
a selected candidate of Phase 1 or Phase 2 — the size of the file at the
returned output path is at or below `target_size_bytes`. -/
theorem c2_budget_satisfaction (env : Env) (target : ℚ)
    (h : (compressPdf env target).success = true) :
    ∃ out, (compressPdf env target).output = some out ∧
      (out.length : ℚ) ≤ target := by
  by_cases hc : (env.origBytes.length : ℚ) ≤ target
  · refine ⟨env.origBytes, ?_, hc⟩
    unfold compressPdf
    rw [if_pos hc]
  · rcases h1 : phase1Outer env target quality_levels false with ⟨o1, te1, cs1⟩
    cases o1 with
    | some tr =>
      rcases tr with ⟨q, s, content⟩
      have hle : (content.length : ℚ) ≤ target :=
        phase1Outer_some_le env target q s content (by rw [h1])
      refine ⟨content, ?_, hle⟩
      unfold compressPdf
      rw [if_neg hc, h1]
    | none =>
      rcases h2 : phase2Outer env target dpi_levels false with ⟨o2, te2, cs2⟩
      cases o2 with
      | some tr =>
        rcases tr with ⟨d, s, content⟩
        have hle : (content.length : ℚ) ≤ target :=
          phase2Outer_some_le env target d s content (by rw [h2])
        refine ⟨content, ?_, hle⟩
        unfold compressPdf
        rw [if_neg hc, h1, h2]
      | none =>
        exfalso
        have hfail : (compressPdf env target).success = false := by
          unfold compressPdf
          rw [if_neg hc, h1, h2]
        rw [h] at hfail
        simp at hfail

/-- C2 witness: a 2-byte input under a 5-byte target succeeds and the
output meets the budget. -/
theorem c2_budget_satisfaction_witness :
    (compressPdf envSmall 5).success = true ∧
    ∃ out, (compressPdf envSmall 5).output = some out ∧
      (out.length : ℚ) ≤ 5 :=
  ⟨by decide, c2_budget_satisfaction envSmall 5 (by decide)⟩

/-- C3: if every candidate of both phases fails or produces a file above the
target, `compress_pdf` raises the exhaustion error, writes nothing to the
final output path, and leaves neither temp file behind. -/
theorem c3_exhaustion (env : Env) (target : ℚ)
    (hbig : target < (env.origBytes.length : ℚ))
    (h1 : ∀ p ∈ qsPairs, satImages env target p = false)
    (h2 : ∀ p ∈ dsPairs, satRender env target p = false) :
    (compressPdf env target).success = false ∧
    (compressPdf env target).output = none ∧
    (compressPdf env target).tempLeft = false ∧
    (compressPdf env target).temp2Left = false := by
  have hc : ¬ (env.origBytes.length : ℚ) ≤ target := not_le.mpr hbig
  have hf1 : (quality_levels.flatMap
      (fun q => scale_factors.map (fun s => (q, s)))).find?
      (satImages env target) = none :=
    List.find?_eq_none.mpr (fun x hx => by simpa using h1 x hx)
  have hf2 : (dpi_levels.flatMap
      (fun d => scale_factors.map (fun s => (d, s)))).find?
      (satRender env target) = none :=
    List.find?_eq_none.mpr (fun x hx => by simpa using h2 x hx)
  rcases hp1 : phase1Outer env target quality_levels false with ⟨o1, te1, cs1⟩
  have hfst1 := phase1Outer_fst env target quality_levels
  have hte1 := phase1Outer_te env target quality_levels
  rw [hp1] at hfst1 hte1
  simp only at hfst1 hte1
  rw [hf1] at hfst1
  simp only [Option.map_none'] at hfst1
  subst hfst1
  simp only [Option.isSome_none] at hte1
  subst hte1
  rcases hp2 : phase2Outer env target dpi_levels false with ⟨o2, te2, cs2⟩
  have hfst2 := phase2Outer_fst env target dpi_levels
  have hte2 := phase2Outer_te env target dpi_levels
  rw [hp2] at hfst2 hte2
  simp only at hfst2 hte2
  rw [hf2] at hfst2
  simp only [Option.map_none'] at hfst2
  subst hfst2
  simp only [Option.isSome_none] at hte2
  subst hte2
  unfold compressPdf
  rw [if_neg hc, hp1, hp2]
  exact ⟨rfl, rfl, rfl, rfl⟩

/-- C3 witness: a 2-byte input under a 1-byte target where every rebuild
fails exhausts both phases, raises, and leaves no files. -/
theorem c3_exhaustion_witness :
    ((1 : ℚ) < (envSmall.origBytes.length : ℚ)) ∧
    ((compressPdf envSmall 1).success = false ∧
     (compressPdf envSmall 1).output = none ∧
     (compressPdf envSmall 1).tempLeft = false ∧
     (compressPdf envSmall 1).temp2Left = false) :=
  ⟨by decide, c3_exhaustion envSmall 1 (by decide) (by decide) (by decide)⟩

/-- C4: when the input's size is already at or below the target,
`compress_pdf` copies the input bytes unchanged to the output, returns
successfully, and invokes no rebuild (the call trace is empty). -/
theorem c4_trivial_copy (env : Env) (target : ℚ)
    (h : (env.origBytes.length : ℚ) ≤ target) :
    compressPdf env target =
      { success := true, output := some env.origBytes,
        tempLeft := false, temp2Left := false, calls := [] } := by
  unfold compressPdf
  rw [if_pos h]

/-- C4 witness: the 2-byte input under a 5-byte target is copied verbatim
with no rebuild calls. -/
theorem c4_trivial_copy_witness :
    ((envSmall.origBytes.length : ℚ) ≤ 5) ∧
    compressPdf envSmall 5 =
      { success := true, output := some envSmall.origBytes,
        tempLeft := false, temp2Left := false, calls := [] } :=
  ⟨by decide, c4_trivial_copy envSmall 5 (by decide)⟩

/-- C5: if any step of `compress_image`'s pipeline — decode, convert,
resize, or encode — fails, the method raises nothing: it returns the
original bytes unchanged and emits the warning diagnostic. -/
theorem c5_compress_image_fallback (c : Codec) (data : List ℕ) (q : ℕ)
    (s : ℚ) (h : compressImagePipeline c data q s = none) :
    compress_image c data q s = (data, true) := by
  unfold compress_image
  rw [h]

/-- C5 witness: a codec whose decode always fails makes `compress_image`
return the input bytes with the diagnostic. -/
theorem c5_compress_image_fallback_witness :
    compressImagePipeline badCodec [7] 85 1 = none ∧
    compress_image badCodec [7] 85 1 = ([7], true) :=
  ⟨rfl, c5_compress_image_fallback badCodec [7] 85 1 rfl⟩

/-- C6 counterexample: `compress_pdf_images` rasterizes a page holding an
image and encodes it at the caller-given quality — here 95, not a fixed
85 — so quality is not held constant on every rasterization path. -/
theorem c6_counterexample :
    (imagesPage 95 1 pgWithImage).content = PageContent.raster 95 1 ∧
    (95 : ℕ) ≠ 85 := by decide

/-- C6 amended: `compress_pdf_rendering` encodes every rendered page at the
fixed JPEG quality 85, while `compress_pdf_images` encodes a rasterized
page at the candidate's quality parameter. -/
theorem c6_amended_quality (dpi : ℕ) (scale : ℚ) (p : Page) (q : ℕ) (s : ℚ)
    (p2 : Page) (h : p2.images ≠ []) :
    (renderPage dpi scale p).content.jpegQuality? = some 85 ∧
    (imagesPage q s p2).content.jpegQuality? = some q := by
  refine ⟨rfl, ?_⟩
  have he : p2.images.isEmpty = false := by
    cases hp : p2.images with
    | nil => exact absurd hp h
    | cons a l => rfl
  simp [imagesPage, he, PageContent.jpegQuality?]

/-- C6 amended witness: concrete pages for both paths. -/
theorem c6_amended_quality_witness :
    pgWithImage.images ≠ [] ∧
    ((renderPage 150 1 pgNoImage).content.jpegQuality? = some 85 ∧
     (imagesPage 75 1 pgWithImage).content.jpegQuality? = some 75) :=
  ⟨by decide, c6_amended_quality 150 1 pgNoImage 75 1 pgWithImage (by decide)⟩

/-- C7 counterexample: on a two-page document whose image-to-summed-page
area ratio is 0.4, `analyze_pdf` reports `image_heavy = false`, because the
code divides by `total_page_area * doc.page_count`, not by the summed page
area alone. -/
theorem c7_counterexample :
    ¬ ((analyzePdf docTwoPage).image_heavy = true ↔
        (totalImageArea docTwoPage : ℚ) / totalPageArea docTwoPage > 3/10) := by
  intro hiff
  have h0 : 0 < totalImageArea docTwoPage := by decide
  have h1 := (analyzePdf_heavy_eq docTwoPage h0).1
  have e1 : totalImageArea docTwoPage = 80 := rfl
  have e2 : totalPageArea docTwoPage = 200 := by
    norm_num [totalPageArea, docTwoPage]
  have hr : imageRatioOf docTwoPage = 1/5 := by
    unfold imageRatioOf
    rw [e1, e2]
    norm_num [docTwoPage]
  rw [hr] at h1
  have h1f : (analyzePdf docTwoPage).image_heavy = false := by
    rw [h1]
    norm_num
  have h2 : (totalImageArea docTwoPage : ℚ) / totalPageArea docTwoPage > 3/10 := by
    rw [e1, e2]
    norm_num
  have h3 := hiff.mpr h2
  rw [h3] at h1f
  simp at h1f

/-- C7 amended: for positive total image area, `image_heavy` is true
exactly when `total_image_area / (total_page_area * page_count) > 0.30`
and `text_heavy` exactly when that same ratio is `< 0.10`, the ratio being
`0` when the summed page area is not positive. -/
theorem c7_amended_classification (d : Doc) (h : 0 < totalImageArea d) :
    (analyzePdf d).image_heavy = decide (imageRatioOf d > 3/10) ∧
    (analyzePdf d).text_heavy = decide (imageRatioOf d < 1/10) :=
  analyzePdf_heavy_eq d h

/-- C7 amended witness: the two-page document has positive image area. -/
theorem c7_amended_classification_witness :
    0 < totalImageArea docTwoPage ∧
    ((analyzePdf docTwoPage).image_heavy =
        decide (imageRatioOf docTwoPage > 3/10) ∧
     (analyzePdf docTwoPage).text_heavy =
        decide (imageRatioOf docTwoPage < 1/10)) :=
  ⟨by decide, c7_amended_classification docTwoPage (by decide)⟩

/-- C8: in `compress_pdf_images`, a page with zero embedded images becomes
a transcluded page whose width and height are the original's times the
scale factor, so its content is not rasterized and its aspect ratio is
unchanged. -/
theorem c8_no_image_page (q : ℕ) (s : ℚ) (p : Page) (h : p.images = []) :
    imagesPage q s p =
      { width := p.width * s, height := p.height * s,
        content := PageContent.transclude } ∧
    (p.height ≠ 0 → s ≠ 0 →
      (p.width * s) / (p.height * s) = p.width / p.height) := by
  constructor
  · simp [imagesPage, h]
  · intro _ hs
    exact mul_div_mul_right p.width p.height hs

/-- C8 witness: a letter-size page with no images under scale 1/2. -/
theorem c8_no_image_page_witness :
    pgNoImage.images = [] ∧
    (imagesPage 50 (1/2) pgNoImage =
      { width := pgNoImage.width * (1/2), height := pgNoImage.height * (1/2),
        content := PageContent.transclude } ∧
     (pgNoImage.height ≠ 0 → (1/2 : ℚ) ≠ 0 →
       (pgNoImage.width * (1/2)) / (pgNoImage.height * (1/2)) =
         pgNoImage.width / pgNoImage.height)) :=
  ⟨rfl, c8_no_image_page 50 (1/2) pgNoImage rfl⟩

/-- C9 counterexample: on an error analysis, `recommend_strategy` returns
the fifth label `basic`, outside the four strategy labels, so its output
does not depend only on the two booleans and the DPI threshold. -/
theorem c9_counterexample :
    recommendStrategy (AnalyzeOutput.err "cannot open") ∉
      ["aggressive_image_compression", "moderate_image_compression",
       "dpi_reduction", "balanced"] := by
  decide

/-- C9 amended: on every non-error analysis, `recommend_strategy` returns
one of exactly four labels, and the label depends only on `image_heavy`,
`text_heavy`, and whether `average_dpi > 200`; an error analysis instead
yields the fixed fifth label `basic`. -/
theorem c9_amended_lookup (a b : Analysis)
    (hih : a.image_heavy = b.image_heavy)
    (hth : a.text_heavy = b.text_heavy)
    (hdpi : a.average_dpi > 200 ↔ b.average_dpi > 200) :
    recommendStrategy (AnalyzeOutput.ok a) ∈
      ["aggressive_image_compression", "moderate_image_compression",
       "dpi_reduction", "balanced"] ∧
    recommendStrategy (AnalyzeOutput.ok a) =
      recommendStrategy (AnalyzeOutput.ok b) := by
  by_cases hA : a.image_heavy = true
  · have hB : b.image_heavy = true := hih ▸ hA
    by_cases hd : a.average_dpi > 200
    · have hd2 : b.average_dpi > 200 := hdpi.mp hd
      simp [recommendStrategy, hA, hB, hd, hd2]
    · have hd2 : ¬ b.average_dpi > 200 := fun hh => hd (hdpi.mpr hh)
      simp [recommendStrategy, hA, hB, hd, hd2]
  · have hB : ¬ b.image_heavy = true := hih ▸ hA
    by_cases hT : a.text_heavy = true
    · have hT2 : b.text_heavy = true := hth ▸ hT
      simp [recommendStrategy, hA, hB, hT, hT2]
    · have hT2 : ¬ b.text_heavy = true := hth ▸ hT
      simp [recommendStrategy, hA, hB, hT, hT2]

/-- C9 amended witness: two analyses agreeing on the booleans and the DPI
threshold but differing elsewhere get the same of the four labels. -/
theorem c9_amended_lookup_witness :
    recommendStrategy (AnalyzeOutput.ok ⟨1, 0, [], false, false, 0, 10⟩) ∈
      ["aggressive_image_compression", "moderate_image_compression",
       "dpi_reduction", "balanced"] ∧
    recommendStrategy (AnalyzeOutput.ok ⟨1, 0, [], false, false, 0, 10⟩) =
      recommendStrategy (AnalyzeOutput.ok ⟨2, 3, [4], false, false, 100, 20⟩) :=
  c9_amended_lookup _ _ rfl rfl (by decide)

/-- C10: when the total image area is zero — in particular for a document
with no embedded images — `analyze_pdf` skips the classification block, so
`image_heavy = false`, `text_heavy = false`, and `average_dpi = 0`. -/
theorem c10_zero_image_area (d : Doc) (h : totalImageArea d = 0) :
    (analyzePdf d).image_heavy = false ∧
    (analyzePdf d).text_heavy = false ∧
    (analyzePdf d).average_dpi = 0 := by
  have hn : ¬ 0 < totalImageArea d := by omega
  simp only [analyzePdf, if_neg hn]
  exact ⟨trivial, trivial, trivial⟩

/-- C10 witness: a one-page document with no images. -/
theorem c10_zero_image_area_witness :
    totalImageArea docNoImages = 0 ∧
    ((analyzePdf docNoImages).image_heavy = false ∧
     (analyzePdf docNoImages).text_heavy = false ∧
     (analyzePdf docNoImages).average_dpi = 0) :=
  ⟨by decide, c10_zero_image_area docNoImages (by decide)⟩

end PdfResizer
